import Mathlib

/-!
Shallow embedding of the AWS EC2 resource detector
(`opentelemetry-aws/src/detector/ec2/{mod.rs, instance_metadata.rs}`).

Modelling conventions:
* `std::time::Duration` is modelled as a natural number (a non-negative
  amount of time; its unit is irrelevant to the code under study).
* Rust `Result<T, Error>` is `Except Error T`; `Result::is_err` and the
  panicking `Result::unwrap` are modelled explicitly below, with a panic
  represented as `Option.none`.
* The HTTP transport stack (reqwest) is an external collaborator: it is
  modelled as a function from the issued request to an abstract outcome,
  `SendOutcome`.  `SendOutcome.failure` corresponds to `send()` returning
  `Err` (request not sent, timed out, or a response status that the
  transport layer itself converts into an error); `SendOutcome.response`
  corresponds to `send()` returning `Ok(response)` — reqwest does *not*
  turn a plain non-2xx status into a `send()` error, and
  `Response::json()` ignores the status and only reads the body.
* The JSON library's observable contract is modelled by `Body`: a body is
  either `malformed` (text that does not parse as JSON) or a parsed
  `Json` value.  serde's derived deserializer for a struct of `String`
  fields (with `rename_all = "camelCase"` and no `#[serde(default)]`)
  requires every recognized camelCase key to be present with a string
  value, ignores unknown keys, and fails otherwise; this is
  `deserializeDocument`.
-/

/-- Duration, modelled as a non-negative amount of time. -/
abbrev Duration := Nat

/-- JSON values, as far as the observable contract of the JSON library
is concerned. -/
inductive Json where
  | null : Json
  | bool (b : Bool) : Json
  | num (n : Int) : Json
  | str (s : String) : Json
  | arr (elems : List Json) : Json
  | obj (fields : List (String × Json)) : Json

/-- An HTTP response body as seen through the JSON library's contract:
either text that fails to parse as JSON, or a parsed JSON value. -/
inductive Body where
  | malformed (raw : String) : Body
  | json (j : Json) : Body

/-- `EC2InstanceIdentityDocument` from `instance_metadata.rs`: the fetched
EC2 instance metadata, eight string fields in source order. -/
structure EC2InstanceIdentityDocument where
  private_ip : String
  instance_id : String
  instance_type : String
  account_id : String
  image_id : String
  architecture : String
  region : String
  availability_zone : String
deriving Repr, DecidableEq

/-- The `Default` derive on `EC2InstanceIdentityDocument`: every field
defaults to the empty string. -/
def EC2InstanceIdentityDocument.default : EC2InstanceIdentityDocument :=
  ⟨"", "", "", "", "", "", "", ""⟩

/-- `Error` from `instance_metadata.rs`: the two failure kinds of the
metadata client, each carrying a diagnostic message. -/
inductive Error where
  | httpRequestFailed (msg : String) : Error
  | deserialization (msg : String) : Error
deriving Repr, DecidableEq

/-- Field access of serde's derived deserializer: look the camelCase key
up in the JSON object; present with a string value succeeds, present with
any other value is a type error, absent is a missing-field error
(no `#[serde(default)]` attribute is applied in the source). -/
def getStringField (fields : List (String × Json)) (key : String) :
    Except String String :=
  match fields.lookup key with
  | some (Json.str s) => Except.ok s
  | some _ => Except.error ("invalid type for field " ++ key)
  | none => Except.error ("missing field " ++ key)

/-- serde's derived deserializer for `EC2InstanceIdentityDocument` with
`rename_all = "camelCase"`: a JSON object whose eight recognized keys are
all present with string values decodes to the document (unknown keys are
ignored); anything else fails. -/
def deserializeDocument : Json → Except String EC2InstanceIdentityDocument
  | Json.obj fields => do
      let private_ip ← getStringField fields "privateIp"
      let instance_id ← getStringField fields "instanceId"
      let instance_type ← getStringField fields "instanceType"
      let account_id ← getStringField fields "accountId"
      let image_id ← getStringField fields "imageId"
      let architecture ← getStringField fields "architecture"
      let region ← getStringField fields "region"
      let availability_zone ← getStringField fields "availabilityZone"
      Except.ok ⟨private_ip, instance_id, instance_type, account_id,
                 image_id, architecture, region, availability_zone⟩
  | _ => Except.error "invalid type: expected struct EC2InstanceIdentityDocument"

/-- `Response::json::<EC2InstanceIdentityDocument>()`: parse the body as
JSON and run the derived deserializer; a malformed body is a parse
error. -/
def decodeBody : Body → Except String EC2InstanceIdentityDocument
  | Body.malformed _ => Except.error "expected value"
  | Body.json j => deserializeDocument j

/-- An HTTP request as issued by the metadata client: method, full URL,
and the timeout applied to the whole request. -/
structure HttpRequest where
  method : String
  url : String
  timeout : Duration
deriving Repr, DecidableEq

/-- Outcome of `reqwest`'s `send()` for one request: `failure` when the
request could not be sent, timed out, or the transport layer itself
treated the outcome as an error; `response` when a response (of any
status, 2xx or not) with a body was received. -/
inductive SendOutcome where
  | failure (msg : String) : SendOutcome
  | response (status : Nat) (body : Body) : SendOutcome

/-- A transport assigns an outcome to each request (the black-box HTTP
client capability). -/
abbrev Transport := HttpRequest → SendOutcome

/-- `EC2InstanceMetadataClient` from `instance_metadata.rs`: the real
IMDS client, holding the base URL for requests. -/
structure EC2InstanceMetadataClient where
  url : String
deriving Repr, DecidableEq

/-- The `Default` impl for `EC2InstanceMetadataClient`: the standard
link-local metadata address. -/
def EC2InstanceMetadataClient.default : EC2InstanceMetadataClient :=
  ⟨"http://169.254.169.254"⟩

/-- `EC2InstanceMetadataClient::with_custom_url`: override the base URL
(the transport handle of `Self::default()` carries no other state in the
model). -/
def EC2InstanceMetadataClient.with_custom_url (url : String) :
    EC2InstanceMetadataClient :=
  ⟨url⟩

/-- `EC2InstanceMetadataClient::get_instance_identity_document`: format
the URL, issue one GET request through the transport, classify a send
failure as `Error.httpRequestFailed` and a body that does not decode as
`Error.deserialization`.  The second component records the requests
issued by the call (the source performs exactly one `send()`). -/
def EC2InstanceMetadataClient.get_instance_identity_document
    (c : EC2InstanceMetadataClient) (transport : Transport)
    (timeout : Duration) :
    Except Error EC2InstanceIdentityDocument × List HttpRequest :=
  let url := c.url ++ "/latest/dynamic/instance-identity/document"
  let req : HttpRequest := ⟨"GET", url, timeout⟩
  let result : Except Error EC2InstanceIdentityDocument :=
    match transport req with
    | SendOutcome.failure e =>
        Except.error (Error.httpRequestFailed ("HTTP request failed: " ++ e))
    | SendOutcome.response _ body =>
        match decodeBody body with
        | Except.error e =>
            Except.error
              (Error.deserialization ("failed to deserialize document: " ++ e))
        | Except.ok document => Except.ok document
  (result, [req])

/-- Constant `semconv::resource::CLOUD_PROVIDER` from the OpenTelemetry
semantic conventions crate. -/
def semconvCloudProvider : String := "cloud.provider"

/-- Constant `semconv::resource::CLOUD_PLATFORM`. -/
def semconvCloudPlatform : String := "cloud.platform"

/-- Constant `semconv::resource::CLOUD_ACCOUNT_ID`. -/
def semconvCloudAccountId : String := "cloud.account.id"

/-- Constant `semconv::resource::CLOUD_REGION`. -/
def semconvCloudRegion : String := "cloud.region"

/-- Constant `semconv::resource::CLOUD_AVAILABILITY_ZONE`. -/
def semconvCloudAvailabilityZone : String := "cloud.availability.zone"

/-- Constant `semconv::resource::HOST_ID`. -/
def semconvHostId : String := "host.id"

/-- Constant `semconv::resource::HOST_TYPE`. -/
def semconvHostType : String := "host.type"

/-- Constant `semconv::resource::HOST_IMAGE_ID`. -/
def semconvHostImageId : String := "host.image.id"

/-- `opentelemetry::KeyValue` restricted to what the detector produces:
string keys and string values. -/
structure KeyValue where
  key : String
  value : String
deriving Repr, DecidableEq

/-- `KeyValue::new`. -/
def KeyValue.new (key value : String) : KeyValue := ⟨key, value⟩

/-- `opentelemetry_sdk::Resource` as the detector observes it: the
ordered collection of attributes it was built from. -/
structure Resource where
  attrs : List KeyValue
deriving Repr, DecidableEq

/-- `Resource::empty`: a resource with zero attributes. -/
def Resource.empty : Resource := ⟨[]⟩

/-- `Resource::new`: a resource holding the given attributes in order. -/
def Resource.new (attrs : List KeyValue) : Resource := ⟨attrs⟩

/-- Rust `Result::is_err`. -/
def exceptIsErr : Except Error EC2InstanceIdentityDocument → Bool
  | Except.ok _ => false
  | Except.error _ => true

/-- Rust `Result::unwrap`, with a panic modelled as `none`. -/
def exceptUnwrap : Except Error EC2InstanceIdentityDocument →
    Option EC2InstanceIdentityDocument
  | Except.ok document => some document
  | Except.error _ => none

/-- The `attributes` array built by `EC2ResourceDetector::detect` on the
success path, in source order. -/
def detectAttributes (doc : EC2InstanceIdentityDocument) : List KeyValue :=
  [KeyValue.new semconvCloudProvider "aws",
   KeyValue.new semconvCloudPlatform "aws_ec2",
   KeyValue.new semconvCloudAccountId doc.account_id,
   KeyValue.new semconvCloudRegion doc.region,
   KeyValue.new semconvCloudAvailabilityZone doc.availability_zone,
   KeyValue.new semconvHostId doc.instance_id,
   KeyValue.new semconvHostType doc.instance_type,
   KeyValue.new semconvHostImageId doc.image_id]

/-- `EC2ResourceDetector` from `mod.rs`: holds a boxed `dyn Client`.  The
trait method `get_instance_identity_document(&self, timeout)` takes the
client by immutable reference, so a client is modelled as a function from
the timeout to its result. -/
structure EC2ResourceDetector where
  client : Duration → Except Error EC2InstanceIdentityDocument

/-- `EC2ResourceDetector::with_client`. -/
def EC2ResourceDetector.with_client
    (client : Duration → Except Error EC2InstanceIdentityDocument) :
    EC2ResourceDetector :=
  ⟨client⟩

/-- `EC2ResourceDetector::detect`, statement for statement: call the
client, return `Resource::empty()` on `is_err`, otherwise `unwrap` the
result (a panic is `none`) and build the eight attributes.  The codomain
is `Option Resource` so that reaching a panic is observable. -/
def EC2ResourceDetector.detect (d : EC2ResourceDetector)
    (timeout : Duration) : Option Resource :=
  let result := d.client timeout
  if exceptIsErr result then
    some Resource.empty
  else
    (exceptUnwrap result).map (fun doc => Resource.new (detectAttributes doc))

/-- A sequence of `n` successive `detect` calls on the same detector with
the same timeout (the detector is taken by `&self` in the source, so no
state is threaded between calls). -/
def detectCalls (d : EC2ResourceDetector) (timeout : Duration) :
    Nat → List (Option Resource)
  | 0 => []
  | n + 1 => d.detect timeout :: detectCalls d timeout n

/-- The eight camelCase keys recognized by the derived deserializer, in
struct field order. -/
def recognizedKeys : List String :=
  ["privateIp", "instanceId", "instanceType", "accountId",
   "imageId", "architecture", "region", "availabilityZone"]

/-- The document used by the repository's own detector test. -/
def sampleDocument : EC2InstanceIdentityDocument :=
  { private_ip := "10.0.0.45",
    instance_id := "i-1234567890abcdef0",
    instance_type := "t2.micro",
    account_id := "123456789012",
    image_id := "ami-5fb8c835",
    architecture := "x86_64",
    region := "eu-west-1",
    availability_zone := "eu-west-1a" }

/-- Claim C1: for every timeout and every client result, if the client's
`get_instance_identity_document` returns an error of either kind, then
`EC2ResourceDetector::detect` returns the empty resource (zero
attributes) and raises no error or panic (the call evaluates to `some`
of a resource, never `none`). -/
theorem detect_client_error_returns_empty
    (d : EC2ResourceDetector) (timeout : Duration) (e : Error)
    (h : d.client timeout = Except.error e) :
    d.detect timeout = some Resource.empty := by
  simp [EC2ResourceDetector.detect, h, exceptIsErr]

/-- Witness for C1: a client that fails with a transport error makes
`detect` return the empty resource. -/
theorem detect_client_error_returns_empty_witness :
    (EC2ResourceDetector.with_client
        (fun _ => Except.error (Error.httpRequestFailed "something went wrong"))).detect 15
      = some Resource.empty :=
  detect_client_error_returns_empty
    (EC2ResourceDetector.with_client
      (fun _ => Except.error (Error.httpRequestFailed "something went wrong")))
    15 (Error.httpRequestFailed "something went wrong") rfl

/-- Claim C2: for every document, if the client returns `Ok(document)`,
then `detect` returns a resource with exactly these eight key-value
pairs, in this order, with values taken verbatim from the document. -/
theorem detect_client_ok_returns_eight_attributes
    (d : EC2ResourceDetector) (timeout : Duration)
    (doc : EC2InstanceIdentityDocument)
    (h : d.client timeout = Except.ok doc) :
    d.detect timeout = some (Resource.new
      [KeyValue.new semconvCloudProvider "aws",
       KeyValue.new semconvCloudPlatform "aws_ec2",
       KeyValue.new semconvCloudAccountId doc.account_id,
       KeyValue.new semconvCloudRegion doc.region,
       KeyValue.new semconvCloudAvailabilityZone doc.availability_zone,
       KeyValue.new semconvHostId doc.instance_id,
       KeyValue.new semconvHostType doc.instance_type,
       KeyValue.new semconvHostImageId doc.image_id]) := by
  simp [EC2ResourceDetector.detect, h, exceptIsErr, exceptUnwrap,
        detectAttributes]

/-- Witness for C2: the repository test's document maps to the expected
eight attributes. -/
theorem detect_client_ok_returns_eight_attributes_witness :
    (EC2ResourceDetector.with_client
        (fun _ => Except.ok sampleDocument)).detect 15
      = some (Resource.new
        [KeyValue.new "cloud.provider" "aws",
         KeyValue.new "cloud.platform" "aws_ec2",
         KeyValue.new "cloud.account.id" "123456789012",
         KeyValue.new "cloud.region" "eu-west-1",
         KeyValue.new "cloud.availability.zone" "eu-west-1a",
         KeyValue.new "host.id" "i-1234567890abcdef0",
         KeyValue.new "host.type" "t2.micro",
         KeyValue.new "host.image.id" "ami-5fb8c835"]) :=
  detect_client_ok_returns_eight_attributes
    (EC2ResourceDetector.with_client (fun _ => Except.ok sampleDocument))
    15 sampleDocument rfl

/-- Claim C6: all-or-nothing: every resource `detect` returns has either
zero attributes or all eight. -/
theorem detect_all_or_nothing
    (d : EC2ResourceDetector) (timeout : Duration) (r : Resource)
    (h : d.detect timeout = some r) :
    r.attrs.length = 0 ∨ r.attrs.length = 8 := by
  cases hc : d.client timeout with
  | error e =>
      rw [detect_client_error_returns_empty d timeout e hc] at h
      left
      simp [← Option.some_inj.mp h, Resource.empty]
  | ok doc =>
      simp [EC2ResourceDetector.detect, hc, exceptIsErr, exceptUnwrap] at h
      right
      simp [← h, Resource.new, detectAttributes]

/-- Witness for C6: at a failing client the returned attribute count is
zero or eight (here zero). -/
theorem detect_all_or_nothing_witness :
    Resource.empty.attrs.length = 0 ∨ Resource.empty.attrs.length = 8 :=
  detect_all_or_nothing
    (EC2ResourceDetector.with_client
      (fun _ => Except.error (Error.deserialization "bad body")))
    0 Resource.empty rfl

/-- Claim C7: the values of `private_ip` and `architecture` are never
projected into the attribute set: however those two fields are rewritten,
the resource returned by `detect` is unchanged. -/
theorem detect_ignores_private_ip_and_architecture
    (doc : EC2InstanceIdentityDocument) (p a : String) (timeout : Duration) :
    (EC2ResourceDetector.with_client (fun _ => Except.ok
        { doc with private_ip := p, architecture := a })).detect timeout
      = (EC2ResourceDetector.with_client (fun _ => Except.ok doc)).detect timeout := by
  simp [EC2ResourceDetector.detect, EC2ResourceDetector.with_client,
        exceptIsErr, exceptUnwrap, detectAttributes]

/-- Claim C8: repeated `detect` calls on one detector with one timeout
all produce the same result; the detector and client are taken by
immutable reference in the source, so no call mutates them. -/
theorem detect_repeated_calls_identical
    (d : EC2ResourceDetector) (timeout : Duration) (n : Nat) :
    detectCalls d timeout n = List.replicate n (d.detect timeout) := by
  induction n with
  | zero => rfl
  | succ n ih => simp [detectCalls, List.replicate, ih]

/-- Claim C10: `detect` is total: for every client result the guarded
`unwrap` is never reached on an error, so no call panics (the result is
always `some` resource). -/
theorem detect_never_panics
    (d : EC2ResourceDetector) (timeout : Duration) :
    (d.detect timeout).isSome = true := by
  cases hc : d.client timeout <;>
    simp [EC2ResourceDetector.detect, hc, exceptIsErr, exceptUnwrap]

/-- Claim C4: whenever the transport reports a send failure (request not
sent, timed out, or a status the transport layer itself treats as an
error), `get_instance_identity_document` returns
`Error.httpRequestFailed`. -/
theorem fetch_send_failure_returns_http_request_failed
    (c : EC2InstanceMetadataClient) (transport : Transport)
    (timeout : Duration) (msg : String)
    (h : transport ⟨"GET",
          c.url ++ "/latest/dynamic/instance-identity/document", timeout⟩
        = SendOutcome.failure msg) :
    (c.get_instance_identity_document transport timeout).1
      = Except.error (Error.httpRequestFailed ("HTTP request failed: " ++ msg)) := by
  simp [EC2InstanceMetadataClient.get_instance_identity_document, h]

/-- Witness for C4: a transport that always times out yields the
transport-failure error kind. -/
theorem fetch_send_failure_returns_http_request_failed_witness :
    (EC2InstanceMetadataClient.default.get_instance_identity_document
        (fun _ => SendOutcome.failure "operation timed out") 0).1
      = Except.error
          (Error.httpRequestFailed "HTTP request failed: operation timed out") :=
  fetch_send_failure_returns_http_request_failed
    EC2InstanceMetadataClient.default
    (fun _ => SendOutcome.failure "operation timed out") 0
    "operation timed out" rfl

/-- Claim C5: whenever the transport returns a response with a 2xx status
whose body does not decode into the document,
`get_instance_identity_document` returns `Error.deserialization`, which
is a different constructor from `Error.httpRequestFailed` for every pair
of messages. -/
theorem fetch_undecodable_body_returns_deserialization
    (c : EC2InstanceMetadataClient) (transport : Transport)
    (timeout : Duration) (status : Nat) (body : Body) (msg : String)
    (hresp : transport ⟨"GET",
          c.url ++ "/latest/dynamic/instance-identity/document", timeout⟩
        = SendOutcome.response status body)
    (_h2xx : 200 ≤ status ∧ status < 300)
    (hdec : decodeBody body = Except.error msg) :
    (c.get_instance_identity_document transport timeout).1
      = Except.error
          (Error.deserialization ("failed to deserialize document: " ++ msg))
    ∧ ∀ m m' : String, Error.deserialization m ≠ Error.httpRequestFailed m' := by
  constructor
  · simp [EC2InstanceMetadataClient.get_instance_identity_document, hresp, hdec]
  · intro m m' hcontra
    exact Error.noConfusion hcontra

/-- Witness for C5: a 200 response whose body is not valid JSON yields
the decode-failure error kind. -/
theorem fetch_undecodable_body_returns_deserialization_witness :
    (EC2InstanceMetadataClient.default.get_instance_identity_document
        (fun _ => SendOutcome.response 200 (Body.malformed "<html>")) 10).1
      = Except.error
          (Error.deserialization "failed to deserialize document: expected value")
    ∧ ∀ m m' : String, Error.deserialization m ≠ Error.httpRequestFailed m' :=
  fetch_undecodable_body_returns_deserialization
    EC2InstanceMetadataClient.default
    (fun _ => SendOutcome.response 200 (Body.malformed "<html>")) 10
    200 (Body.malformed "<html>") "expected value"
    rfl (by decide) rfl

/-- Claim C9: every `get_instance_identity_document` call issues exactly
one GET request, to the base URL extended with the fixed document path,
with no retries; the default base address is the standard link-local
metadata address, and `with_custom_url` overrides it verbatim. -/
theorem fetch_single_get_request_fixed_url :
    (∀ (c : EC2InstanceMetadataClient) (transport : Transport)
        (timeout : Duration),
      (c.get_instance_identity_document transport timeout).2
        = [⟨"GET",
            c.url ++ "/latest/dynamic/instance-identity/document", timeout⟩])
    ∧ EC2InstanceMetadataClient.default.url = "http://169.254.169.254"
    ∧ ∀ u : String, (EC2InstanceMetadataClient.with_custom_url u).url = u :=
  ⟨fun _ _ _ => rfl, rfl, fun _ => rfl⟩

/-- Bind on `Except` propagates an error unchanged. -/
theorem exceptBindError {ε α β : Type} (e : ε) (f : α → Except ε β) :
    (Except.error e >>= f) = Except.error e := rfl

/-- Bind on `Except` applies the continuation to a success value. -/
theorem exceptBindOk {ε α β : Type} (a : α) (f : α → Except ε β) :
    (Except.ok a >>= f) = f a := rfl

/-- A successful `getStringField` comes from a string value under the
key. -/
theorem getStringField_ok_lookup (fields : List (String × Json))
    (key s : String) (h : getStringField fields key = Except.ok s) :
    fields.lookup key = some (Json.str s) := by
  unfold getStringField at h
  cases hl : fields.lookup key with
  | none => rw [hl] at h; exact Except.noConfusion h
  | some j =>
    rw [hl] at h
    cases j <;> simp_all

/-- Looking a key up past an entry with a different key is unchanged. -/
theorem lookup_append_cons_ne (l1 l2 : List (String × Json))
    (k key : String) (v : Json) (h : key ≠ k) :
    (l1 ++ (k, v) :: l2).lookup key = (l1 ++ l2).lookup key := by
  induction l1 with
  | nil =>
    simp only [List.nil_append, List.lookup_cons]
    rw [show (key == k) = false from beq_eq_false_iff_ne.mpr h]
  | cons hd tl ih =>
    obtain ⟨a, b⟩ := hd
    simp only [List.cons_append, List.lookup_cons]
    cases key == a <;> simp [ih]

/-- The derived deserializer reads the object only through lookups of the
eight recognized keys. -/
theorem deserializeDocument_congr (f1 f2 : List (String × Json))
    (h : ∀ k ∈ recognizedKeys, f1.lookup k = f2.lookup k) :
    deserializeDocument (Json.obj f1) = deserializeDocument (Json.obj f2) := by
  have hg : ∀ k ∈ recognizedKeys, getStringField f1 k = getStringField f2 k := by
    intro k hk
    unfold getStringField
    rw [h k hk]
  simp only [deserializeDocument,
    hg "privateIp" (by decide), hg "instanceId" (by decide),
    hg "instanceType" (by decide), hg "accountId" (by decide),
    hg "imageId" (by decide), hg "architecture" (by decide),
    hg "region" (by decide), hg "availabilityZone" (by decide)]

/-- A successful deserialization forces every recognized key to be
present in the object with a string value. -/
theorem deserializeDocument_ok_lookup (fields : List (String × Json))
    (doc : EC2InstanceIdentityDocument)
    (h : deserializeDocument (Json.obj fields) = Except.ok doc) :
    ∀ k ∈ recognizedKeys, ∃ s, fields.lookup k = some (Json.str s) := by
  simp only [deserializeDocument] at h
  cases h1 : getStringField fields "privateIp" with
  | error e => rw [h1, exceptBindError] at h; exact Except.noConfusion h
  | ok v1 =>
  rw [h1, exceptBindOk] at h
  cases h2 : getStringField fields "instanceId" with
  | error e => rw [h2, exceptBindError] at h; exact Except.noConfusion h
  | ok v2 =>
  rw [h2, exceptBindOk] at h
  cases h3 : getStringField fields "instanceType" with
  | error e => rw [h3, exceptBindError] at h; exact Except.noConfusion h
  | ok v3 =>
  rw [h3, exceptBindOk] at h
  cases h4 : getStringField fields "accountId" with
  | error e => rw [h4, exceptBindError] at h; exact Except.noConfusion h
  | ok v4 =>
  rw [h4, exceptBindOk] at h
  cases h5 : getStringField fields "imageId" with
  | error e => rw [h5, exceptBindError] at h; exact Except.noConfusion h
  | ok v5 =>
  rw [h5, exceptBindOk] at h
  cases h6 : getStringField fields "architecture" with
  | error e => rw [h6, exceptBindError] at h; exact Except.noConfusion h
  | ok v6 =>
  rw [h6, exceptBindOk] at h
  cases h7 : getStringField fields "region" with
  | error e => rw [h7, exceptBindError] at h; exact Except.noConfusion h
  | ok v7 =>
  rw [h7, exceptBindOk] at h
  cases h8 : getStringField fields "availabilityZone" with
  | error e => rw [h8, exceptBindError] at h; exact Except.noConfusion h
  | ok v8 =>
  intro k hk
  simp only [recognizedKeys, List.mem_cons, List.not_mem_nil, or_false] at hk
  rcases hk with rfl | rfl | rfl | rfl | rfl | rfl | rfl | rfl
  · exact ⟨v1, getStringField_ok_lookup fields "privateIp" v1 h1⟩
  · exact ⟨v2, getStringField_ok_lookup fields "instanceId" v2 h2⟩
  · exact ⟨v3, getStringField_ok_lookup fields "instanceType" v3 h3⟩
  · exact ⟨v4, getStringField_ok_lookup fields "accountId" v4 h4⟩
  · exact ⟨v5, getStringField_ok_lookup fields "imageId" v5 h5⟩
  · exact ⟨v6, getStringField_ok_lookup fields "architecture" v6 h6⟩
  · exact ⟨v7, getStringField_ok_lookup fields "region" v7 h7⟩
  · exact ⟨v8, getStringField_ok_lookup fields "availabilityZone" v8 h8⟩

/-- Counterexample to claim C3: a valid JSON object body carrying only
`instanceId` (every other recognized field absent) does not make the
fetch succeed with empty-string defaults; `get_instance_identity_document`
returns a deserialization error, because the derived deserializer has no
`serde(default)` and requires every field to be present. -/
theorem fetch_missing_fields_errors_counterexample :
    (EC2InstanceMetadataClient.default.get_instance_identity_document
        (fun _ => SendOutcome.response 200
          (Body.json (Json.obj [("instanceId", Json.str "i-1234567890abcdef0")])))
        5).1
      = Except.error (Error.deserialization
          "failed to deserialize document: missing field privateIp") := rfl

/-- Claim C3 as amended: unknown/extra JSON keys in the body are ignored
(removing an unrecognized entry never changes the decode result), but a
recognized field absent from the body makes the decode fail — it does not
take the empty-string default, and the fetch does not succeed with
`Ok`. -/
theorem deserialize_ignores_unknown_and_rejects_missing :
    (∀ (l1 l2 : List (String × Json)) (k : String) (v : Json),
        k ∉ recognizedKeys →
        deserializeDocument (Json.obj (l1 ++ (k, v) :: l2))
          = deserializeDocument (Json.obj (l1 ++ l2)))
    ∧ (∀ (fields : List (String × Json)) (k : String),
        k ∈ recognizedKeys → fields.lookup k = none →
        ∀ doc : EC2InstanceIdentityDocument,
          deserializeDocument (Json.obj fields) ≠ Except.ok doc) := by
  constructor
  · intro l1 l2 k v hk
    exact deserializeDocument_congr _ _
      (fun key hkey => lookup_append_cons_ne l1 l2 k key v
        (fun he => hk (he ▸ hkey)))
  · intro fields k hk hnone doc h
    obtain ⟨s, hs⟩ := deserializeDocument_ok_lookup fields doc h k hk
    rw [hnone] at hs
    exact Option.noConfusion hs

/-- Witness for the amended C3: an unrecognized `billingProducts` entry
is ignored, and the empty object (every recognized field absent) does not
decode to the all-defaults document. -/
theorem deserialize_ignores_unknown_and_rejects_missing_witness :
    deserializeDocument (Json.obj [("billingProducts", Json.null)])
        = deserializeDocument (Json.obj [])
    ∧ deserializeDocument (Json.obj [])
        ≠ Except.ok EC2InstanceIdentityDocument.default :=
  ⟨deserialize_ignores_unknown_and_rejects_missing.1
      [] [] "billingProducts" Json.null (by decide),
   deserialize_ignores_unknown_and_rejects_missing.2
      [] "privateIp" (by decide) rfl EC2InstanceIdentityDocument.default⟩
